import Mathlib

/-!
Shallow embedding of `src/React+RAG.py`, a single-file conversational-agent
script.  The logic owned by the script is: loading configuration from the process
environment (lines 25-29), three tool wrapper functions
(`get_current_datetime`, `get_wikipedia_summary`, `search_company_docs`,
lines 34-78), and an interactive read-eval-print loop (`main`, lines 144-151).

External effects are modelled as explicit inputs:
  - the process environment is a function `String → Option String`
    (`os.getenv` returns `none` for a missing variable, `os.environ[k]`
    raises `KeyError k` for a missing variable);
  - the outcome of the external encyclopedia call is a `WikiOutcome` value;
  - the remote chat-completion call is an oracle
    `SearchRequest → Except String (Option String)` (`Except.error e` models
    the call raising an exception whose `str` is `e`; `Except.ok c` models a
    successful response where `message.content` of the first choice is `c`,
    a nullable string);
  - the system clock reading is a `DateTime` value;
  - standard input is a list of lines and the agent executor is an oracle
    `String → Except String ExecResponse` (`Except.error e` models the
    awaited `ainvoke` call raising).

Python values that can be either a string or `None` are modelled by
`PyValue`.  A Lean function returning a plain value (rather than an
`Except`) models Python code that cannot raise.
-/

/-- A Python value that is either a string or `None`.  Used for the result
of `search_company_docs`, whose annotation promises `str` but whose body can
return the nullable `message.content` field. -/
inductive PyValue where
  | str (s : String)
  | noneVal
deriving DecidableEq

/-- The nullable `message.content` field of a chat-completion choice,
returned to Python unchanged: a string stays a string, `null` becomes
`None`. -/
def pyOfOption : Option String → PyValue
  | Option.some s => PyValue.str s
  | Option.none => PyValue.noneVal

/-- The module-level configuration captured at start-up
(lines 26-29 of the source): three `os.getenv` reads and one string
literal. `os.getenv` yields `Option String`. -/
structure Config where
  openai_api_key : Option String
  deployment : Option String
  endpoint : Option String
  api_version : String
deriving DecidableEq

/-- The start-up configuration section (source lines 26-29), instrumented:
the first component is the captured configuration, the second is the list of
environment-variable names read by `os.getenv` during start-up, in source
order.  `api_version` is the literal `"2024-02-01"`, not an environment
read. -/
def loadConfigT (env : String → Option String) : Config × List String :=
  ({ openai_api_key := env "AZURE_OAI_KEY"
     deployment := env "AZURE_OAI_DEPLOYMENT"
     endpoint := env "AZURE_OAI_ENDPOINT"
     api_version := "2024-02-01" },
   ["AZURE_OAI_KEY", "AZURE_OAI_DEPLOYMENT", "AZURE_OAI_ENDPOINT"])

/-- The configuration value captured at start-up. -/
def loadConfig (env : String → Option String) : Config :=
  (loadConfigT env).1

/-- A clock reading, the fields of a Python `datetime` object. -/
structure DateTime where
  year : Nat
  month : Nat
  day : Nat
  hour : Nat
  minute : Nat
  second : Nat
  microsecond : Nat
deriving DecidableEq

/-- Zero-pad the decimal rendering of `n` on the left to width `w`,
as the fixed-width datetime fields of Python do. -/
def padZero (w : Nat) (n : Nat) : String :=
  let s := toString n
  String.mk (List.replicate (w - s.length) '0') ++ s

/-- The Python method `datetime.isoformat()`: `YYYY-MM-DDTHH:MM:SS`, with a
`.ffffff` microsecond suffix exactly when the microsecond field is
nonzero. -/
def DateTime.isoformat (d : DateTime) : String :=
  padZero 4 d.year ++ "-" ++ padZero 2 d.month ++ "-" ++ padZero 2 d.day ++ "T" ++
  padZero 2 d.hour ++ ":" ++ padZero 2 d.minute ++ ":" ++ padZero 2 d.second ++
  (if d.microsecond = 0 then "" else "." ++ padZero 6 d.microsecond)

/-- Source lines 34-35: `def get_current_datetime(*args, **kwargs): return
datetime.now().isoformat()`.  The positional and keyword arguments are
accepted and ignored; `now` is the clock reading at call time. -/
def get_current_datetime (args : List PyValue) (kwargs : List (String × PyValue))
    (now : DateTime) : String :=
  DateTime.isoformat now

/-- The outcome of the external `wikipedia.summary(query)` call:
a summary string, a `DisambiguationError` (carrying its `str` rendering),
a `PageError`, or any other exception (carrying its `str` rendering). -/
inductive WikiOutcome where
  | success (summary : String)
  | disambiguation (e : String)
  | pageNotFound
  | otherExc (e : String)
deriving DecidableEq

/-- Source lines 37-45: `get_wikipedia_summary` wraps the external call in
`try`/`except` clauses and always returns a string: the summary on success,
the f-string `"Disambiguation error: {e}"` on `DisambiguationError`,
`"Page not found."` on `PageError`, and `str(e)` on any other exception. -/
def get_wikipedia_summary (o : WikiOutcome) : String :=
  match o with
  | WikiOutcome.success s => s
  | WikiOutcome.disambiguation e => "Disambiguation error: " ++ e
  | WikiOutcome.pageNotFound => "Page not found."
  | WikiOutcome.otherExc e => e

/-- `str(KeyError(k))` in Python: the repr of the missing key,
i.e. the key wrapped in single quotes. -/
def keyErrorMsg (k : String) : String := "\x27" ++ k ++ "\x27"

/-- The request that `search_company_docs` sends to the remote
chat-completion endpoint (source lines 49-73): the client parameters come
from the configuration captured at start-up, the query becomes the single
user message, and the `azure_search` data-source parameters come from
call-time `os.environ` reads. -/
structure SearchRequest where
  azure_endpoint : Option String
  api_key : Option String
  api_version : String
  model : Option String
  query : String
  search_endpoint : String
  search_index : String
  search_key : String
deriving DecidableEq

/-- The part of `search_company_docs` that runs before the remote call:
evaluate the three `os.environ[...]` subscripts in source order
(`AZURE_SEARCH_ENDPOINT` at line 63, `AZURE_SEARCH_INDEX` at line 64,
`AZURE_SEARCH_KEY` at line 67) against the call-time environment — a
missing key raises `KeyError` — and assemble the request from them and from
the start-up configuration. -/
def buildSearchRequest (cfg : Config) (env : String → Option String)
    (query : String) : Except String SearchRequest :=
  match env "AZURE_SEARCH_ENDPOINT" with
  | Option.none => Except.error (keyErrorMsg "AZURE_SEARCH_ENDPOINT")
  | Option.some se =>
    match env "AZURE_SEARCH_INDEX" with
    | Option.none => Except.error (keyErrorMsg "AZURE_SEARCH_INDEX")
    | Option.some si =>
      match env "AZURE_SEARCH_KEY" with
      | Option.none => Except.error (keyErrorMsg "AZURE_SEARCH_KEY")
      | Option.some sk =>
        Except.ok
          { azure_endpoint := cfg.endpoint
            api_key := cfg.openai_api_key
            api_version := cfg.api_version
            model := cfg.deployment
            query := query
            search_endpoint := se
            search_index := si
            search_key := sk }

/-- Line 75 of the source applied to the outcome of the remote call: a successful
completion returns `completion.choices[0].message.content` unchanged
(possibly `None`); an exception is not handled here but by the surrounding
`except` clause. -/
def respondOf : Except String (Option String) → Except String PyValue
  | Except.error e => Except.error e
  | Except.ok content => Except.ok (pyOfOption content)

/-- Source lines 47-78: `search_company_docs`.  The whole body sits in a
`try` whose `except Exception as e` returns the f-string
`"Search error: {e}"`; exceptions can come from the call-time
`os.environ` subscripts or from the remote chat-completion call itself. -/
def search_company_docs (cfg : Config) (env : String → Option String)
    (remote : SearchRequest → Except String (Option String))
    (query : String) : PyValue :=
  match (buildSearchRequest cfg env query).bind (fun req => respondOf (remote req)) with
  | Except.error e => PyValue.str ("Search error: " ++ e)
  | Except.ok v => v

/-- The result dictionary of an awaited `agent_executor.ainvoke` call; the
result of the executor always carries the `"output"` key that line 151 reads. -/
structure ExecResponse where
  output : String
deriving DecidableEq

/-- The Python method `str.lower()` (ASCII range, which is all the sentinel
comparison at line 148 distinguishes). -/
def pyLower (s : String) : String := String.mk (s.data.map Char.toLower)

/-- The Python method `str.strip()`: surrounding whitespace removed.  The loop at
lines 147-148 never calls it; it is used only to state which raw lines
would equal the sentinel after trimming. -/
def pyStrip (s : String) : String :=
  String.mk (((s.data.dropWhile Char.isWhitespace).reverse.dropWhile
    Char.isWhitespace).reverse)

/-- An observable action of one loop iteration: the executor being invoked
with the line as input (line 150), or the `"output"` field of the response being
printed (line 151). -/
inductive Event where
  | invoked (input : String)
  | printedOutput (out : String)
deriving DecidableEq

/-- How the loop ends: `break` on the quit sentinel (line 149), `EOFError`
from `input()` once the lines run out, or an exception raised by the
executor call (line 150), which the loop does not catch. -/
inductive LoopResult where
  | quitExit
  | inputExhausted
  | executorRaised (e : String)
deriving DecidableEq

/-- Source lines 146-151, the body of `async def main`: read a line; if its
lowercasing equals `"quit"`, break; otherwise await
`agent_executor.ainvoke({"input": query})` and print `response["output"]`;
repeat.  Produces the trace of events and how the loop ended.  An executor
exception stops the loop immediately (no handler), leaving only the
invocation event of the failing line. -/
def main (ex : String → Except String ExecResponse) :
    List String → List Event × LoopResult
  | [] => ([], LoopResult.inputExhausted)
  | q :: rest =>
    if pyLower q = "quit" then ([], LoopResult.quitExit)
    else
      match ex q with
      | Except.error e => ([Event.invoked q], LoopResult.executorRaised e)
      | Except.ok r =>
        (Event.invoked q :: Event.printedOutput r.output :: (main ex rest).1,
         (main ex rest).2)

/-- The process exit code as the Python runtime determines it for
`asyncio.run(main())` at line 155: 0 when `main` returns normally (the
`break` on quit), 1 when an exception propagates out uncaught (an
`EOFError` from `input()` or an executor exception). -/
def processExitCode : LoopResult → Nat
  | LoopResult.quitExit => 0
  | LoopResult.inputExhausted => 1
  | LoopResult.executorRaised _ => 1

/-- The loop as a two-phase state machine over the whole in-process state:
`awaitingInput`, or `terminated` with the process exit code. -/
inductive Phase where
  | awaitingInput
  | terminated (exit : Nat)
deriving DecidableEq

/-- The in-process state while `main` runs: the start-up configuration, the
lines not yet read, the events so far, and the phase. -/
structure ProgState where
  cfg : Config
  pending : List String
  events : List Event
  phase : Phase
deriving DecidableEq

/-- One iteration of the loop at lines 146-151 as a state transformer; a
terminated state is absorbing.  No branch touches the configuration: the
source has no assignment to `openai_api_key`, `deployment`, `endpoint` or
`api_version` after lines 26-29 (and no `global` declaration anywhere). -/
def loopStep (ex : String → Except String ExecResponse) (s : ProgState) : ProgState :=
  match s.phase with
  | Phase.terminated _ => s
  | Phase.awaitingInput =>
    match s.pending with
    | [] => { s with phase := Phase.terminated 1 }
    | q :: rest =>
      if pyLower q = "quit" then
        { s with pending := rest, phase := Phase.terminated 0 }
      else
        match ex q with
        | Except.error _ =>
          { s with pending := rest,
                   events := s.events ++ [Event.invoked q],
                   phase := Phase.terminated 1 }
        | Except.ok r =>
          { s with pending := rest,
                   events := s.events ++ [Event.invoked q, Event.printedOutput r.output] }

/-- The tail of `search_company_docs` once the request was assembled: invoke
the remote call, wrap an exception as the prefixed error string of line 78,
and pass a successful content through (line 75). -/
def respondToPy : Except String (Option String) → PyValue
  | Except.error e => PyValue.str ("Search error: " ++ e)
  | Except.ok content => pyOfOption content

/-- Claim C2: for every query, the encyclopedia lookup tool never raises:
on a disambiguation error it returns a string containing (here: starting
with) "Disambiguation error"; on a page-not-found error it returns exactly
"Page not found."; on any other exception it returns that exception
rendered as a string; on success it returns the summary text.  Totality of
`get_wikipedia_summary` is the never-raises part: every outcome of the
external call is mapped to a plain string. -/
theorem C2_wikipedia_never_raises :
    (∀ e, ∃ t, get_wikipedia_summary (WikiOutcome.disambiguation e)
        = "Disambiguation error" ++ t) ∧
    get_wikipedia_summary WikiOutcome.pageNotFound = "Page not found." ∧
    (∀ e, get_wikipedia_summary (WikiOutcome.otherExc e) = e) ∧
    (∀ s, get_wikipedia_summary (WikiOutcome.success s) = s) :=
  ⟨fun e => ⟨": " ++ e, rfl⟩, rfl, fun _ => rfl, fun _ => rfl⟩

/-- Claim C4: the date/time tool, for any positional and keyword arguments,
returns the ISO rendering of the system clock reading at call time, and the
arguments have no influence on the result.  Totality of
`get_current_datetime` is the never-raises part; its only input beyond the
ignored arguments is the clock reading. -/
theorem C4_datetime_iso (args : List PyValue) (kwargs : List (String × PyValue))
    (now : DateTime) :
    get_current_datetime args kwargs now = DateTime.isoformat now ∧
    ∀ args2 kwargs2, get_current_datetime args2 kwargs2 now
        = get_current_datetime args kwargs now :=
  ⟨rfl, fun _ _ => rfl⟩

/-- Claim C5, counterexample: the start-up configuration section reads
exactly three environment variables, and none of the search settings
(`AZURE_SEARCH_ENDPOINT`, `AZURE_SEARCH_KEY`, `AZURE_SEARCH_INDEX`) is
among them — the claim that five settings including the search ones are
read at start-up fails. -/
theorem C5_startup_reads_counterexample :
    ((loadConfigT (fun _ => Option.none)).2.length = 3) ∧
    "AZURE_SEARCH_ENDPOINT" ∉ (loadConfigT (fun _ => Option.none)).2 ∧
    "AZURE_SEARCH_KEY" ∉ (loadConfigT (fun _ => Option.none)).2 ∧
    "AZURE_SEARCH_INDEX" ∉ (loadConfigT (fun _ => Option.none)).2 := by
  decide

/-- Claim C5 as amended: at process start-up the configuration loader reads
exactly three named settings from the process environment — the model key,
deployment name and model endpoint — and fixes the API version as a
constant; the three search settings are not read at start-up (they are read
at call time inside the search tool, claim C6). -/
theorem C5_startup_reads (env : String → Option String) :
    (loadConfigT env).2
        = ["AZURE_OAI_KEY", "AZURE_OAI_DEPLOYMENT", "AZURE_OAI_ENDPOINT"] ∧
    (loadConfig env).openai_api_key = env "AZURE_OAI_KEY" ∧
    (loadConfig env).deployment = env "AZURE_OAI_DEPLOYMENT" ∧
    (loadConfig env).endpoint = env "AZURE_OAI_ENDPOINT" ∧
    (loadConfig env).api_version = "2024-02-01" :=
  ⟨rfl, rfl, rfl, rfl, rfl⟩

/-- One step of the loop never changes the configuration component of the
state. -/
theorem loopStep_preserves_cfg (ex : String → Except String ExecResponse)
    (s : ProgState) : (loopStep ex s).cfg = s.cfg := by
  unfold loopStep
  repeat' split
  all_goals rfl

/-- Claim C8: the configuration captured at start-up (API key, deployment
name, endpoint, API version) is immutable for the process lifetime: however
many iterations of the interactive loop run, the configuration component of
the program state is unchanged. -/
theorem C8_config_immutable (ex : String → Except String ExecResponse)
    (s : ProgState) (n : Nat) : ((loopStep ex)^[n] s).cfg = s.cfg := by
  induction n with
  | zero => rfl
  | succ n ih => rw [Function.iterate_succ_apply', loopStep_preserves_cfg, ih]

/-- Claim C1: per line read by the interactive loop — a line whose
lowercasing is "quit" ends the loop with no executor invocation and no
output; any other line, when the executor returns a result, produces
exactly one invocation event carrying that line, then a print event
carrying the `"output"` field of the result, and the loop continues with
the remaining lines. -/
theorem C1_loop_per_line (ex : String → Except String ExecResponse)
    (q : String) (rest : List String) :
    (pyLower q = "quit" → main ex (q :: rest) = ([], LoopResult.quitExit)) ∧
    (pyLower q ≠ "quit" → ∀ r, ex q = Except.ok r →
      main ex (q :: rest)
          = (Event.invoked q :: Event.printedOutput r.output :: (main ex rest).1,
             (main ex rest).2) ∧
      (main ex (q :: rest)).1.count (Event.invoked q)
          = (main ex rest).1.count (Event.invoked q) + 1) := by
  constructor
  · intro h
    simp [main, h]
  · intro h r hr
    refine ⟨?_, ?_⟩ <;> simp [main, h, hr, List.count_cons]

/-- Executor oracle used by witnesses: always succeeds, echoing the input
in the output field. -/
def exEcho : String → Except String ExecResponse :=
  fun q => Except.ok { output := "ans:" ++ q }

/-- Witness for claim C1, at a cased sentinel line and at an ordinary
line. -/
theorem C1_loop_per_line_witness :
    main exEcho ["QuIt"] = ([], LoopResult.quitExit) ∧
    main exEcho ["hello"]
        = ([Event.invoked "hello", Event.printedOutput "ans:hello"],
           LoopResult.inputExhausted) := by
  constructor
  · exact (C1_loop_per_line exEcho "QuIt" []).1 (by decide)
  · have h := ((C1_loop_per_line exEcho "hello" []).2 (by decide)
      { output := "ans:hello" } rfl).1
    rw [h]; rfl

/-- Claim C7: an exception raised by the executor call is not caught by the
loop: the loop stops right there (only the invocation event of the failing
line is produced, later lines are never read) and the process exit code is
nonzero. -/
theorem C7_executor_exception_fatal (ex : String → Except String ExecResponse)
    (q : String) (rest : List String) (e : String)
    (hq : pyLower q ≠ "quit") (he : ex q = Except.error e) :
    main ex (q :: rest) = ([Event.invoked q], LoopResult.executorRaised e) ∧
    processExitCode (main ex (q :: rest)).2 ≠ 0 := by
  have h1 : main ex (q :: rest)
      = ([Event.invoked q], LoopResult.executorRaised e) := by
    simp [main, hq, he]
  refine ⟨h1, ?_⟩
  rw [h1]
  simp [processExitCode]

/-- Executor oracle used by witnesses: always raises. -/
def exBoom : String → Except String ExecResponse :=
  fun _ => Except.error "boom"

/-- Witness for claim C7: the raising executor stops the loop at the first
ordinary line; the pending second line is never processed and the exit code
is nonzero. -/
theorem C7_executor_exception_fatal_witness :
    main exBoom ["hello", "later"]
        = ([Event.invoked "hello"], LoopResult.executorRaised "boom") ∧
    processExitCode (main exBoom ["hello", "later"]).2 ≠ 0 :=
  C7_executor_exception_fatal exBoom "hello" ["later"] "boom" (by decide) rfl

/-- Claim C9: the quit check lowercases the raw line without trimming: a
line that equals "quit" only after stripping surrounding whitespace does
not end the loop — it is submitted to the executor like any other line. -/
theorem C9_quit_check_no_strip (ex : String → Except String ExecResponse)
    (q : String) (rest : List String)
    (hraw : pyLower q ≠ "quit") (hstrip : pyLower (pyStrip q) = "quit") :
    main ex (q :: rest) ≠ ([], LoopResult.quitExit) ∧
    ∃ evs, (main ex (q :: rest)).1 = Event.invoked q :: evs := by
  have hmain : ∃ evs, (main ex (q :: rest)).1 = Event.invoked q :: evs := by
    cases hx : ex q with
    | error e => exact ⟨[], by simp [main, hraw, hx]⟩
    | ok r =>
      exact ⟨Event.printedOutput r.output :: (main ex rest).1,
        by simp [main, hraw, hx]⟩
  refine ⟨?_, hmain⟩
  obtain ⟨evs, hevs⟩ := hmain
  intro hcontra
  rw [hcontra] at hevs
  simp at hevs

/-- Witness for claim C9: the line "quit " (trailing space) lowercases to
"quit" only after stripping; the loop submits it to the executor. -/
theorem C9_quit_check_no_strip_witness :
    pyLower "quit " ≠ "quit" ∧ pyLower (pyStrip "quit ") = "quit" ∧
    ∃ evs, (main exEcho ["quit "]).1 = Event.invoked "quit " :: evs :=
  ⟨by decide, by decide,
    (C9_quit_check_no_strip exEcho "quit " [] (by decide) (by decide)).2⟩

/-- Claim C3: the knowledge-base search tool never raises.  Every run
either hits an exception — from a missing call-time environment variable or
from the remote call — and returns the string error prefixed
"Search error: ", or succeeds and passes the content of the response
through; in particular a missing `AZURE_SEARCH_ENDPOINT` yields the
prefixed rendering of the `KeyError`.  Totality of `search_company_docs`
is the never-raises part. -/
theorem C3_search_never_raises (cfg : Config) (env : String → Option String)
    (remote : SearchRequest → Except String (Option String)) (q : String) :
    ((∃ e, search_company_docs cfg env remote q
        = PyValue.str ("Search error: " ++ e)) ∨
      (∃ req content, buildSearchRequest cfg env q = Except.ok req ∧
        remote req = Except.ok content ∧
        search_company_docs cfg env remote q = pyOfOption content)) ∧
    (env "AZURE_SEARCH_ENDPOINT" = Option.none →
      search_company_docs cfg env remote q
        = PyValue.str ("Search error: " ++ keyErrorMsg "AZURE_SEARCH_ENDPOINT")) := by
  constructor
  · cases hb : buildSearchRequest cfg env q with
    | error e =>
      exact Or.inl ⟨e, by simp [search_company_docs, hb, Except.bind]⟩
    | ok req =>
      cases hr : remote req with
      | error e =>
        exact Or.inl ⟨e, by
          simp [search_company_docs, hb, Except.bind, respondOf, hr]⟩
      | ok content =>
        refine Or.inr ⟨req, content, rfl, hr, ?_⟩
        cases content <;>
          simp [search_company_docs, hb, Except.bind, respondOf, hr, pyOfOption]
  · intro hnone
    simp [search_company_docs, buildSearchRequest, hnone, Except.bind]

/-- Witness for claim C3: with an empty environment the first `os.environ`
subscript raises `KeyError`, and the tool returns the prefixed error
string. -/
theorem C3_search_never_raises_witness :
    search_company_docs (loadConfig (fun _ => Option.none)) (fun _ => Option.none)
        (fun _ => Except.ok (Option.some "ok")) "q"
      = PyValue.str ("Search error: " ++ keyErrorMsg "AZURE_SEARCH_ENDPOINT") :=
  (C3_search_never_raises (loadConfig (fun _ => Option.none)) (fun _ => Option.none)
    (fun _ => Except.ok (Option.some "ok")) "q").2 rfl

/-- Claim C6: the search tool takes its three search settings from the
call-time environment: when the environment holds them, the request handed
to the remote call carries exactly those call-time values (for any start-up
configuration whatsoever — the search fields never come from the captured
configuration), and the result of the tool is determined by the remote
response to that request. -/
theorem C6_search_env_at_call (cfg : Config) (env : String → Option String)
    (remote : SearchRequest → Except String (Option String))
    (q se si sk : String)
    (he : env "AZURE_SEARCH_ENDPOINT" = Option.some se)
    (hi : env "AZURE_SEARCH_INDEX" = Option.some si)
    (hk : env "AZURE_SEARCH_KEY" = Option.some sk) :
    buildSearchRequest cfg env q = Except.ok
      { azure_endpoint := cfg.endpoint
        api_key := cfg.openai_api_key
        api_version := cfg.api_version
        model := cfg.deployment
        query := q
        search_endpoint := se
        search_index := si
        search_key := sk } ∧
    search_company_docs cfg env remote q
      = respondToPy (remote
          { azure_endpoint := cfg.endpoint
            api_key := cfg.openai_api_key
            api_version := cfg.api_version
            model := cfg.deployment
            query := q
            search_endpoint := se
            search_index := si
            search_key := sk }) := by
  have hb : buildSearchRequest cfg env q = Except.ok
      { azure_endpoint := cfg.endpoint
        api_key := cfg.openai_api_key
        api_version := cfg.api_version
        model := cfg.deployment
        query := q
        search_endpoint := se
        search_index := si
        search_key := sk } := by
    simp [buildSearchRequest, he, hi, hk]
  refine ⟨hb, ?_⟩
  cases hr : remote
      { azure_endpoint := cfg.endpoint
        api_key := cfg.openai_api_key
        api_version := cfg.api_version
        model := cfg.deployment
        query := q
        search_endpoint := se
        search_index := si
        search_key := sk } with
  | error e =>
    simp [search_company_docs, hb, Except.bind, respondOf, hr, respondToPy]
  | ok content =>
    cases content <;>
      simp [search_company_docs, hb, Except.bind, respondOf, hr, respondToPy,
        pyOfOption]

/-- Environment oracle used by witnesses: concrete values for the three
search settings, and a derived value for every other variable. -/
def envFull : String → Option String := fun k =>
  if k = "AZURE_SEARCH_ENDPOINT" then Option.some "https://s.example"
  else if k = "AZURE_SEARCH_INDEX" then Option.some "margies-index"
  else if k = "AZURE_SEARCH_KEY" then Option.some "sk-123"
  else Option.some ("v-" ++ k)

/-- Witness for claim C6 at a fully populated concrete environment. -/
theorem C6_search_env_at_call_witness :
    buildSearchRequest (loadConfig envFull) envFull "q2" = Except.ok
      { azure_endpoint := Option.some "v-AZURE_OAI_ENDPOINT"
        api_key := Option.some "v-AZURE_OAI_KEY"
        api_version := "2024-02-01"
        model := Option.some "v-AZURE_OAI_DEPLOYMENT"
        query := "q2"
        search_endpoint := "https://s.example"
        search_index := "margies-index"
        search_key := "sk-123" } :=
  (C6_search_env_at_call (loadConfig envFull) envFull
    (fun _ => Except.ok (Option.some "ok")) "q2"
    "https://s.example" "margies-index" "sk-123" rfl rfl rfl).1

/-- Claim C10: when the remote chat-completion call succeeds but the
content field of the first choice is null, `search_company_docs` returns
`None` rather than a string, despite its declared `str` return type. -/
theorem C10_null_content (cfg : Config) (env : String → Option String)
    (remote : SearchRequest → Except String (Option String)) (q : String)
    (req : SearchRequest)
    (hb : buildSearchRequest cfg env q = Except.ok req)
    (hr : remote req = Except.ok Option.none) :
    search_company_docs cfg env remote q = PyValue.noneVal ∧
    ∀ s, search_company_docs cfg env remote q ≠ PyValue.str s := by
  have h : search_company_docs cfg env remote q = PyValue.noneVal := by
    simp [search_company_docs, hb, Except.bind, respondOf, hr, pyOfOption]
  refine ⟨h, ?_⟩
  intro s hcontra
  rw [h] at hcontra
  simp at hcontra

/-- Remote oracle used by witnesses: a successful completion whose content
field is null. -/
def remoteNull : SearchRequest → Except String (Option String) :=
  fun _ => Except.ok Option.none

/-- Witness for claim C10: with a populated environment and a null-content
completion the tool returns `None`, not a string. -/
theorem C10_null_content_witness :
    search_company_docs (loadConfig envFull) envFull remoteNull "q3"
        = PyValue.noneVal ∧
    ∀ s, search_company_docs (loadConfig envFull) envFull remoteNull "q3"
        ≠ PyValue.str s :=
  C10_null_content (loadConfig envFull) envFull remoteNull "q3"
    { azure_endpoint := Option.some "v-AZURE_OAI_ENDPOINT"
      api_key := Option.some "v-AZURE_OAI_KEY"
      api_version := "2024-02-01"
      model := Option.some "v-AZURE_OAI_DEPLOYMENT"
      query := "q3"
      search_endpoint := "https://s.example"
      search_index := "margies-index"
      search_key := "sk-123" } rfl rfl
